import Mathlib

/-
  Shallow embedding of the WhatsApp session-manager core:
  - WhatsAppRepository (src/unnamed/part_000): in-memory record store for
    contacts, messages, message logs, QR codes and API status snapshots.
  - WhatsAppService (src/server.js): session lifecycle, transport event
    handlers, and the outbound operations sendMessage / markChatAsRead.

  JS Records (objects used as string-keyed maps) are modelled as
  insertion-ordered association lists, matching JS object key order.
  Date values are modelled as Nat milliseconds; the transport supplies
  second-resolution timestamps which the code multiplies by 1000.
  Async transport commands that can reject are modelled by an explicit
  Except-valued outcome parameter.
-/

namespace WhatsApp

/-- Delivery status of a message (string union in the TS source). -/
inductive MsgStatus
  | sent
  | delivered
  | read
  | received
  | failed
  deriving DecidableEq

/-- Message kind (string union in the TS source). -/
inductive MsgType
  | text
  | media
  | document
  | location
  deriving DecidableEq

/-- The lastMessage summary stored on a Contact. -/
structure LastMessage where
  content : String
  timestamp : Nat
  status : MsgStatus
  deriving DecidableEq

/-- Contact record, keyed by chat id. -/
structure Contact where
  id : String
  name : String
  number : String
  lastMessage : Option LastMessage := none
  unreadCount : Nat := 0
  deriving DecidableEq

/-- Message record, keyed by (chatId, id).
    `sender := none` models a JS object built without a sender key
    (the bulk-import path), which the spread-merge in saveMessage
    would leave untouched on update. -/
structure Message where
  id : String
  chatId : String
  content : String
  timestamp : Nat
  fromMe : Bool
  sender : Option String := none
  status : MsgStatus
  type : MsgType
  deriving DecidableEq

/-- Append-only audit record (the JS fields from/to are keywords in Lean,
    renamed logFrom/logTo). -/
structure MessageLog where
  messageId : String
  logFrom : String
  logTo : String
  type : MsgType
  content : String
  status : MsgStatus
  sentAt : Nat
  deliveredAt : Option Nat := none
  readAt : Option Nat := none
  deriving DecidableEq

/-- QR code record persisted by the qr event handler. -/
structure QRCodeRec where
  code : String
  generatedAt : Nat
  expiresAt : Nat
  scanned : Bool := false
  scannedAt : Option Nat := none
  deriving DecidableEq

/-- Point-in-time health snapshot. -/
structure APIStatus where
  status : String
  lastChecked : Nat
  rateLimitRemaining : Nat
  rateLimitReset : Nat
  responseTimeMs : Nat
  errorMessage : Option String := none
  deriving DecidableEq

/-- Look up a key in an insertion-ordered association list
    (JS object property access). -/
def alistGet {α : Type} (l : List (String × α)) (k : String) : Option α :=
  match l with
  | [] => none
  | (k₀, v) :: rest => if k₀ = k then some v else alistGet rest k

/-- Set a key in an insertion-ordered association list; a new key is
    appended at the end (JS object key insertion order). -/
def alistSet {α : Type} (l : List (String × α)) (k : String) (v : α) : List (String × α) :=
  match l with
  | [] => [(k, v)]
  | (k₀, v₀) :: rest => if k₀ = k then (k, v) :: rest else (k₀, v₀) :: alistSet rest k v

/-- The in-memory WhatsAppRepository state. -/
structure Repo where
  contacts : List (String × Contact) := []
  messages : List (String × List Message) := []
  messageLogs : List MessageLog := []
  qrCodes : List QRCodeRec := []
  apiStatus : Option APIStatus := none
  deriving DecidableEq

/-- The empty repository (the initial state of the singleton). -/
def emptyRepo : Repo := {}

/-- saveContact: `contacts[id] = {...contacts[id], ...contact}`. Every
    caller passing a Lean Contact provides all fields, so the spread-merge
    replaces the stored record wholesale; the one JS caller that omits a
    key (bulk import omitting lastMessage) pre-reads the stored value, see
    loadInitialDataChat. -/
def Repo.saveContact (repo : Repo) (contact : Contact) : Repo :=
  { repo with contacts := alistSet repo.contacts contact.id contact }

/-- getContactById: `contacts[id] || null`. -/
def Repo.getContactById (repo : Repo) (id : String) : Option Contact :=
  alistGet repo.contacts id

/-- Spread-merge of a saved message onto an existing one: all fields come
    from the new object except a missing sender key, which keeps the old
    value. -/
def mergeMessage (existing message : Message) : Message :=
  { message with
    sender := match message.sender with
      | some s => some s
      | none => existing.sender }

/-- Replace the first message with the given id (JS findIndex + assign). -/
def updateFirstMessage (msgs : List Message) (message : Message) : List Message :=
  match msgs with
  | [] => []
  | m :: rest =>
    if m.id = message.id then mergeMessage m message :: rest
    else m :: updateFirstMessage rest message

/-- saveMessage: upsert by (chatId, id); updates the first existing index,
    otherwise pushes at the end. -/
def Repo.saveMessage (repo : Repo) (message : Message) : Repo :=
  let chatMsgs := (alistGet repo.messages message.chatId).getD []
  let chatMsgs₂ :=
    if chatMsgs.any (fun m => m.id == message.id) then
      updateFirstMessage chatMsgs message
    else
      chatMsgs ++ [message]
  { repo with messages := alistSet repo.messages message.chatId chatMsgs₂ }

/-- getMessages: `messages[chatId] || []`. -/
def Repo.messagesFor (repo : Repo) (chatId : String) : List Message :=
  (alistGet repo.messages chatId).getD []

/-- Overwrite the status of the first message with the given id. -/
def setMessageStatus (msgs : List Message) (messageId : String) (status : MsgStatus) :
    List Message :=
  match msgs with
  | [] => []
  | m :: rest =>
    if m.id = messageId then { m with status := status } :: rest
    else m :: setMessageStatus rest messageId status

/-- Update the first matching message log: overwrite status, and stamp
    deliveredAt / readAt when the new status is delivered / read. -/
def updateLogStatus (logs : List MessageLog) (messageId : String) (status : MsgStatus)
    (timestamp : Nat) : List MessageLog :=
  match logs with
  | [] => []
  | log :: rest =>
    if log.messageId = messageId then
      let log₁ := { log with status := status }
      let log₂ :=
        if status = MsgStatus.delivered then { log₁ with deliveredAt := some timestamp }
        else if status = MsgStatus.read then { log₁ with readAt := some timestamp }
        else log₁
      log₂ :: rest
    else log :: updateLogStatus rest messageId status timestamp

/-- Walk the chats in key order; in the first chat containing the id,
    overwrite that message status; report whether a chat was found
    (the JS loop breaks after the first hit). -/
def updateMessagesAssoc (chats : List (String × List Message)) (messageId : String)
    (status : MsgStatus) : List (String × List Message) × Bool :=
  match chats with
  | [] => ([], false)
  | (cid, msgs) :: rest =>
    if msgs.any (fun m => m.id == messageId) then
      ((cid, setMessageStatus msgs messageId status) :: rest, true)
    else
      let res := updateMessagesAssoc rest messageId status
      ((cid, msgs) :: res.1, res.2)

/-- updateMessageStatus: find the message across all chats, overwrite its
    status unconditionally, and update the first matching log entry; the
    log is only touched when a message was found. -/
def Repo.updateMessageStatus (repo : Repo) (messageId : String) (status : MsgStatus)
    (timestamp : Nat) : Repo :=
  let res := updateMessagesAssoc repo.messages messageId status
  if res.2 then
    { repo with
      messages := res.1
      messageLogs := updateLogStatus repo.messageLogs messageId status timestamp }
  else
    { repo with messages := res.1 }

/-- markMessagesAsRead: when the chat has a stored message list, flip every
    non-self non-read message to read and zero the unread counter of the
    contact stored under the same key; otherwise do nothing at all. -/
def Repo.markMessagesAsRead (repo : Repo) (chatId : String) : Repo :=
  match alistGet repo.messages chatId with
  | none => repo
  | some msgs =>
    let msgs₂ := msgs.map (fun m =>
      if !m.fromMe && m.status != MsgStatus.read then { m with status := MsgStatus.read }
      else m)
    let contacts₂ :=
      match alistGet repo.contacts chatId with
      | some c => alistSet repo.contacts chatId { c with unreadCount := 0 }
      | none => repo.contacts
    { repo with messages := alistSet repo.messages chatId msgs₂, contacts := contacts₂ }

/-- saveMessageLog: unconditional push. -/
def Repo.saveMessageLog (repo : Repo) (log : MessageLog) : Repo :=
  { repo with messageLogs := repo.messageLogs ++ [log] }

/-- saveQRCode: unconditional push. -/
def Repo.saveQRCode (repo : Repo) (qr : QRCodeRec) : Repo :=
  { repo with qrCodes := repo.qrCodes ++ [qr] }

/-- Mark the first QR record with the given code as scanned (JS find). -/
def markScannedFirst (qrs : List QRCodeRec) (code : String) (now : Nat) : List QRCodeRec :=
  match qrs with
  | [] => []
  | qr :: rest =>
    if qr.code = code then { qr with scanned := true, scannedAt := some now } :: rest
    else qr :: markScannedFirst rest code now

/-- markQRCodeAsScanned. -/
def Repo.markQRCodeAsScanned (repo : Repo) (code : String) (now : Nat) : Repo :=
  { repo with qrCodes := markScannedFirst repo.qrCodes code now }

/-- saveAPIStatus: single latest pointer. -/
def Repo.saveAPIStatus (repo : Repo) (status : APIStatus) : Repo :=
  { repo with apiStatus := some status }

/-- Number of stored messages with the given id in the given chat. -/
def Repo.messageCount (repo : Repo) (chatId messageId : String) : Nat :=
  (repo.messagesFor chatId).countP (fun m => m.id == messageId)

/-- Number of message-log entries for the given message id. -/
def Repo.logCount (repo : Repo) (messageId : String) : Nat :=
  repo.messageLogs.countP (fun log => log.messageId == messageId)

/-- First message with the given id across all chats in key order (the
    message updateMessageStatus targets). -/
def findMessageAssoc (chats : List (String × List Message)) (messageId : String) :
    Option Message :=
  match chats with
  | [] => none
  | (_, msgs) :: rest =>
    match msgs.find? (fun m => m.id == messageId) with
    | some m => some m
    | none => findMessageAssoc rest messageId

/-- Connection state of the service (string union in the source). -/
inductive ConnState
  | DISCONNECTED
  | CONNECTING
  | CONNECTED
  deriving DecidableEq

/-- Mutable fields of the WhatsAppService singleton that the claims are
    about. The transport handle `client` is identified by its creation
    number, modelling JS object identity of successive `new Client(...)`
    instances; `clientsCreated` counts how many instances were ever
    constructed (the spec calls this number a generation). messageHandlers,
    sessionPath and puppeteerArgs carry no claim-relevant behaviour and
    are omitted. -/
structure ServiceState where
  client : Option Nat := none
  qrCode : Option String := none
  connectionState : ConnState := ConnState.DISCONNECTED
  connectionError : Option String := none
  isInitializing : Bool := false
  clientsCreated : Nat := 0
  deriving DecidableEq

/-- A raw transport message event. The getChat/getContact metadata the
    handler may read is carried inline; `none` models an absent or empty
    (falsy) JS string. -/
structure RawMessage where
  id : String
  msgFrom : String
  msgTo : String
  body : String
  hasMedia : Bool := false
  timestamp : Nat
  fromMe : Bool
  chatName : Option String := none
  contactName : Option String := none
  contactPushname : Option String := none
  deriving DecidableEq

/-- JS `a || b` over possibly-absent strings (absent and empty both fall
    through to the right operand). -/
def orElseStr (a b : Option String) : Option String :=
  match a with
  | some s => if s = "" then b else some s
  | none => b

/-- JS `s.split(sep)[0]`. -/
def jsSplitHead (s sep : String) : String :=
  (s.splitOn sep).headD ""

/-- Does `pat` occur as a contiguous block inside `s`? -/
def charsContain (s pat : List Char) : Bool :=
  match s with
  | [] => pat.isEmpty
  | _ :: rest => pat.isPrefixOf s || charsContain rest pat

/-- JS `s.includes(pat)`, modelled as substring containment on the
    character lists (again for kernel evaluability). -/
def jsIncludes (s pat : String) : Bool :=
  charsContain s.data pat.data

/-- JS `s.endsWith(pat)`, modelled on the character lists (the library
    String.endsWith is byte-position recursion the kernel cannot
    evaluate; suffix on the character list is the same predicate). -/
def jsEndsWith (s pat : String) : Bool :=
  pat.data.isSuffixOf s.data

/-- `chatId.endsWith("@c.us") ? chatId : chatId + "@c.us"`
    (processIncomingMessage). -/
def formatChatId (chatId : String) : String :=
  if jsEndsWith chatId "@c.us" then chatId else chatId ++ "@c.us"

/-- `to.includes("@c.us") ? to : to + "@c.us"`
    (sendMessage and markChatAsRead). -/
def formatNumber (dest : String) : String :=
  if jsIncludes dest "@c.us" then dest else dest ++ "@c.us"

namespace WhatsAppService

/-- processIncomingMessage: derive the chat id from the non-self side,
    look up or create the contact (incrementing unreadCount for every
    non-self message when the contact already exists), upsert the Message,
    overwrite the contact lastMessage with this message, and append one
    MessageLog entry. -/
def processIncomingMessage (repo : Repo) (message : RawMessage) : Repo :=
  let chatId := if message.fromMe then message.msgTo else message.msgFrom
  let formattedChatId := formatChatId chatId
  let contactRepo :=
    match repo.getContactById formattedChatId with
    | none =>
      let c : Contact :=
        { id := formattedChatId
          name := (orElseStr message.contactName
              (orElseStr message.contactPushname message.chatName)).getD
              (jsSplitHead formattedChatId "@")
          number := jsSplitHead formattedChatId "@"
          lastMessage := none
          unreadCount := if message.fromMe then 0 else 1 }
      (c, repo.saveContact c)
    | some c =>
      if !message.fromMe then
        let c₂ := { c with unreadCount := c.unreadCount + 1 }
        (c₂, repo.saveContact c₂)
      else
        (c, repo)
  let contact := contactRepo.1
  let repo₂ := contactRepo.2.saveMessage
    { id := message.id
      chatId := formattedChatId
      content := message.body
      timestamp := message.timestamp * 1000
      fromMe := message.fromMe
      sender := some (if message.fromMe then "me" else contact.name)
      status := if message.fromMe then MsgStatus.sent else MsgStatus.received
      type := if message.hasMedia then MsgType.media else MsgType.text }
  let repo₃ := repo₂.saveContact
    { contact with
      lastMessage := some
        { content := message.body
          timestamp := message.timestamp * 1000
          status := if message.fromMe then MsgStatus.sent else MsgStatus.received } }
  repo₃.saveMessageLog
    { messageId := message.id
      logFrom := if message.fromMe then "me" else message.msgFrom.replace "@c.us" ""
      logTo := if message.fromMe then message.msgTo.replace "@c.us" "" else "me"
      type := if message.hasMedia then MsgType.media else MsgType.text
      content := message.body
      status := if message.fromMe then MsgStatus.sent else MsgStatus.received
      sentAt := message.timestamp * 1000 }

/-- Ack code to status: 3 means delivered, 4 means read, everything else
    stays at the initial value sent. -/
def ackToStatus (ack : Nat) : MsgStatus :=
  if ack = 3 then MsgStatus.delivered
  else if ack = 4 then MsgStatus.read
  else MsgStatus.sent

/-- message_ack handler: only self-sent messages are persisted; for
    fromMe = false the handler merely logs and emits. -/
def handleMessageAck (repo : Repo) (message : RawMessage) (ack : Nat) (now : Nat) : Repo :=
  if message.fromMe then
    repo.updateMessageStatus message.id (ackToStatus ack) now
  else
    repo

/-- qr handler: store the code on the service and persist a QR record
    with a 60 second TTL. The connection state is not touched. -/
def handleQr (st : ServiceState) (repo : Repo) (qr : String) (now : Nat) :
    ServiceState × Repo :=
  ({ st with qrCode := some qr },
   repo.saveQRCode { code := qr, generatedAt := now, expiresAt := now + 60 * 1000 })

/-- authenticated handler: mark the pending QR code as scanned when one
    is stored. -/
def handleAuthenticated (st : ServiceState) (repo : Repo) (now : Nat) :
    ServiceState × Repo :=
  match st.qrCode with
  | some code => (st, repo.markQRCodeAsScanned code now)
  | none => (st, repo)

/-- auth_failure handler: record the error; state untouched. -/
def handleAuthFailure (st : ServiceState) (repo : Repo) (reason : String) :
    ServiceState × Repo :=
  ({ st with connectionError := some ("Authentication failure: " ++ reason) }, repo)

/-- disconnected handler: force DISCONNECTED, record the reason, persist an
    offline snapshot and drop the transport handle. The qrCode field is not
    cleared here. -/
def handleDisconnected (st : ServiceState) (repo : Repo) (reason : String) (now : Nat) :
    ServiceState × Repo :=
  ({ st with
      connectionState := ConnState.DISCONNECTED
      connectionError := some reason
      client := none },
   repo.saveAPIStatus
     { status := "offline"
       lastChecked := now
       rateLimitRemaining := 0
       rateLimitReset := now + 24 * 60 * 60 * 1000
       responseTimeMs := 0
       errorMessage := some ("Disconnected: " ++ reason) })

end WhatsAppService

/-- A message as returned by the transport getMessages during bulk
    import. -/
structure ImportMsg where
  id : String
  body : String
  timestamp : Nat
  fromMe : Bool
  hasMedia : Bool := false
  deriving DecidableEq

/-- lastMessage summary on a chat returned by the transport getChats. -/
structure ChatLastMessage where
  body : String
  fromMe : Bool
  timestamp : Nat
  deriving DecidableEq

/-- A chat as returned by the transport getChats, together with the
    outcome of the per-chat getMessages call the bulk import makes:
    `none` models a rejected getMessages (the code logs and skips). -/
structure ChatData where
  idSerialized : String
  idUser : String
  name : Option String := none
  contactPushname : Option String := none
  isGroup : Bool := false
  unreadCount : Nat := 0
  lastMessage : Option ChatLastMessage := none
  messagesResult : Option (List ImportMsg) := none
  deriving DecidableEq

namespace WhatsAppService

/-- Bulk-import step for a single chat: skip groups, upsert the Contact,
    then import the recent messages unless getMessages failed. The JS
    contact object omits the lastMessage key when the chat has none, so
    the saveContact spread-merge keeps any stored summary; that pre-read
    is made explicit here. -/
def loadInitialDataChat (repo : Repo) (chat : ChatData) : Repo :=
  if chat.isGroup then repo
  else
    let contact : Contact :=
      { id := chat.idSerialized
        name := (orElseStr chat.name chat.contactPushname).getD chat.idUser
        number := chat.idUser
        lastMessage :=
          match chat.lastMessage with
          | some lm => some
              { content := lm.body
                timestamp := lm.timestamp * 1000
                status := if lm.fromMe then MsgStatus.sent else MsgStatus.received }
          | none => (repo.getContactById chat.idSerialized).bind Contact.lastMessage
        unreadCount := chat.unreadCount }
    let repo₁ := repo.saveContact contact
    match chat.messagesResult with
    | none => repo₁
    | some msgs =>
      msgs.foldl (fun r msg =>
        r.saveMessage
          { id := msg.id
            chatId := chat.idSerialized
            content := msg.body
            timestamp := msg.timestamp * 1000
            fromMe := msg.fromMe
            sender := none
            status := if msg.fromMe then MsgStatus.sent else MsgStatus.received
            type := if msg.hasMedia then MsgType.media else MsgType.text }) repo₁

/-- loadInitialData: guarded on a live handle and CONNECTED state, then
    one pass over the non-group chats. -/
def loadInitialData (st : ServiceState) (repo : Repo) (chats : List ChatData) : Repo :=
  if st.client.isNone || st.connectionState != ConnState.CONNECTED then repo
  else chats.foldl loadInitialDataChat repo

/-- ready handler: force CONNECTED, clear qrCode and connectionError,
    persist an online snapshot, then run the bulk import. -/
def handleReady (st : ServiceState) (repo : Repo) (chats : List ChatData) (now : Nat) :
    ServiceState × Repo :=
  let st₂ := { st with
    connectionState := ConnState.CONNECTED
    qrCode := none
    connectionError := none }
  let repo₁ := repo.saveAPIStatus
    { status := "online"
      lastChecked := now
      rateLimitRemaining := 1000
      rateLimitReset := now + 24 * 60 * 60 * 1000
      responseTimeMs := 0
      errorMessage := none }
  (st₂, loadInitialData st₂ repo₁ chats)

/-- Outcome of one initialize() call: the new service and repository
    state, the value the returned promise settles with, and the names of
    the events emitted, in order. -/
structure InitOutcome where
  state : ServiceState
  repo : Repo
  result : Except String Unit
  emitted : List String

/-- initialize(): no-op when already initializing or when a client handle
    exists; otherwise flip to CONNECTING, construct a fresh transport
    instance, and await the session start. A session-start rejection is
    caught: the state becomes DISCONNECTED, the message is recorded, an
    offline snapshot is persisted and an error event is emitted, but the
    promise still resolves (result = ok) and the handle is not cleared.
    The finally clause resets isInitializing on every path. -/
def initClient (st : ServiceState) (repo : Repo) (now : Nat)
    (startResult : Except String Unit) : InitOutcome :=
  if st.isInitializing then
    { state := st, repo := repo, result := Except.ok (), emitted := [] }
  else if st.client.isSome then
    { state := st, repo := repo, result := Except.ok (), emitted := [] }
  else
    let newClient := st.clientsCreated + 1
    let st₁ := { st with
      isInitializing := true
      connectionState := ConnState.CONNECTING
      client := some newClient
      clientsCreated := newClient }
    match startResult with
    | Except.ok () =>
      { state := { st₁ with isInitializing := false }
        repo := repo
        result := Except.ok ()
        emitted := ["stateChange"] }
    | Except.error msg =>
      { state := { st₁ with
          connectionState := ConnState.DISCONNECTED
          connectionError := some msg
          isInitializing := false }
        repo := repo.saveAPIStatus
          { status := "offline"
            lastChecked := now
            rateLimitRemaining := 0
            rateLimitReset := now + 24 * 60 * 60 * 1000
            responseTimeMs := 0
            errorMessage := some msg }
        result := Except.ok ()
        emitted := ["stateChange", "stateChange", "error"] }

/-- disconnect(): no-op without a handle; otherwise await destroy. On
    success clear the handle and qrCode and force DISCONNECTED; a destroy
    rejection is rethrown before any of those assignments run. -/
def disconnect (st : ServiceState) (repo : Repo) (destroyResult : Except String Unit) :
    ServiceState × Repo × Except String Unit :=
  match st.client with
  | none => (st, repo, Except.ok ())
  | some _ =>
    match destroyResult with
    | Except.error msg => (st, repo, Except.error msg)
    | Except.ok () =>
      ({ st with
          client := none
          qrCode := none
          connectionState := ConnState.DISCONNECTED },
       repo, Except.ok ())

/-- sendMessage: guard on a live handle and CONNECTED state, issue the
    transport send, and only on success persist the Message (status sent)
    and one MessageLog entry; a transport rejection is rethrown with no
    writes. `sendResult` carries the transport-assigned message id. -/
def sendMessage (st : ServiceState) (repo : Repo) (dest content : String) (now : Nat)
    (sendResult : Except String String) : Repo × Except String Message :=
  if st.client.isNone || st.connectionState != ConnState.CONNECTED then
    (repo, Except.error "WhatsApp client is not connected")
  else
    let formattedNumber := formatNumber dest
    match sendResult with
    | Except.error e => (repo, Except.error e)
    | Except.ok resultId =>
      let newMessage : Message :=
        { id := resultId
          chatId := formattedNumber
          content := content
          timestamp := now
          fromMe := true
          sender := some "me"
          status := MsgStatus.sent
          type := MsgType.text }
      let repo₁ := repo.saveMessage newMessage
      let repo₂ := repo₁.saveMessageLog
        { messageId := resultId
          logFrom := "me"
          logTo := formattedNumber.replace "@c.us" ""
          type := MsgType.text
          content := content
          status := MsgStatus.sent
          sentAt := now }
      (repo₂, Except.ok newMessage)

/-- markChatAsRead: guard on a live handle and CONNECTED state, issue
    sendSeen, and on success run the repository markMessagesAsRead; a
    sendSeen rejection is rethrown with no writes. -/
def markChatAsRead (st : ServiceState) (repo : Repo) (chatId : String)
    (sendSeenResult : Except String Unit) : Repo × Except String Unit :=
  if st.client.isNone || st.connectionState != ConnState.CONNECTED then
    (repo, Except.error "WhatsApp client is not connected")
  else
    match sendSeenResult with
    | Except.error e => (repo, Except.error e)
    | Except.ok () => (repo.markMessagesAsRead (formatNumber chatId), Except.ok ())

end WhatsAppService

/-- One step of an execution: a public call on the service, or a transport
    callback. Transport events carry the creation number of the client
    instance that emitted them; the handlers in the source never consult
    it. Each operation that can reject carries its outcome explicitly. -/
inductive Step
  | callInit (startResult : Except String Unit)
  | callDisconnect (destroyResult : Except String Unit)
  | evQr (gen : Nat) (code : String)
  | evAuthenticated (gen : Nat)
  | evAuthFailure (gen : Nat) (reason : String)
  | evReady (gen : Nat) (chats : List ChatData)
  | evDisconnected (gen : Nat) (reason : String)
  | evMessage (gen : Nat) (message : RawMessage)
  | evMessageAck (gen : Nat) (message : RawMessage) (ack : Nat)
  | callSendMessage (dest content : String) (sendResult : Except String String)
  | callMarkChatAsRead (chatId : String) (sendSeenResult : Except String Unit)

/-- Apply one timestamped step to the combined service and repository
    state. -/
def step (sr : ServiceState × Repo) (ev : Step × Nat) : ServiceState × Repo :=
  let st := sr.1
  let repo := sr.2
  let now := ev.2
  match ev.1 with
  | Step.callInit r =>
    let o := WhatsAppService.initClient st repo now r
    (o.state, o.repo)
  | Step.callDisconnect r =>
    let o := WhatsAppService.disconnect st repo r
    (o.1, o.2.1)
  | Step.evQr _ code => WhatsAppService.handleQr st repo code now
  | Step.evAuthenticated _ => WhatsAppService.handleAuthenticated st repo now
  | Step.evAuthFailure _ reason => WhatsAppService.handleAuthFailure st repo reason
  | Step.evReady _ chats => WhatsAppService.handleReady st repo chats now
  | Step.evDisconnected _ reason => WhatsAppService.handleDisconnected st repo reason now
  | Step.evMessage _ m => (st, WhatsAppService.processIncomingMessage repo m)
  | Step.evMessageAck _ m ack => (st, WhatsAppService.handleMessageAck repo m ack now)
  | Step.callSendMessage dest content r =>
    (st, (WhatsAppService.sendMessage st repo dest content now r).1)
  | Step.callMarkChatAsRead cid r =>
    (st, (WhatsAppService.markChatAsRead st repo cid r).1)

/-- Replace the emitter tag of a transport event by 0; public calls are
    untouched. -/
def stripGen (s : Step) : Step :=
  match s with
  | Step.evQr _ code => Step.evQr 0 code
  | Step.evAuthenticated _ => Step.evAuthenticated 0
  | Step.evAuthFailure _ reason => Step.evAuthFailure 0 reason
  | Step.evReady _ chats => Step.evReady 0 chats
  | Step.evDisconnected _ reason => Step.evDisconnected 0 reason
  | Step.evMessage _ m => Step.evMessage 0 m
  | Step.evMessageAck _ m ack => Step.evMessageAck 0 m ack
  | s => s

/-- Run a timestamped step list from the freshly constructed singleton
    (empty repository, DISCONNECTED service). -/
def run (steps : List (Step × Nat)) : ServiceState × Repo :=
  steps.foldl step ({}, {})

/-- Well-formedness of the contact table: every stored contact carries the
    key it is stored under. Every write through saveContact stores the
    record under its own id field, so every repository reachable through
    the service operations satisfies this. -/
def Repo.contactsWF (repo : Repo) : Prop :=
  ∀ k c, alistGet repo.contacts k = some c → c.id = k

/- Concrete inputs used by the per-claim counterexamples and witnesses. -/

/-- An inbound (not self-sent) raw message. -/
def mC1 : RawMessage :=
  { id := "m1", msgFrom := "5511999@c.us", msgTo := "me", body := "hi",
    timestamp := 100, fromMe := false }

/-- The repository after processing mC1 twice from the empty store. -/
def rC1 : Repo :=
  WhatsAppService.processIncomingMessage
    (WhatsAppService.processIncomingMessage emptyRepo mC1) mC1

/-- A connected service with one live transport instance. -/
def stCon : ServiceState :=
  { client := some 1, connectionState := ConnState.CONNECTED, clientsCreated := 1 }

/-- Repository holding the self-sent message m1 and its log, produced by a
    successful sendMessage while connected. -/
def repoC2 : Repo :=
  (WhatsAppService.sendMessage stCon emptyRepo "5511999" "hello" 5 (Except.ok "m1")).1

/-- The transport representation of the self-sent message m1, as delivered
    with message_ack events. -/
def ackMsgC2 : RawMessage :=
  { id := "m1", msgFrom := "me", msgTo := "5511999@c.us", body := "hello",
    timestamp := 5, fromMe := true }

/-- Service history creating transport instance 1, losing it, and creating
    transport instance 2. -/
def preC3 : ServiceState × Repo :=
  run [(Step.callInit (Except.ok ()), 0), (Step.evDisconnected 1 "lost", 1),
       (Step.callInit (Except.ok ()), 2)]

/-- Service history receiving a QR code while connecting and then a
    disconnected event. -/
def preC4 : ServiceState × Repo :=
  run [(Step.callInit (Except.ok ()), 0), (Step.evQr 1 "ABC", 1),
       (Step.evDisconnected 1 "net", 2)]

/-- A connecting service holding a QR code, about to receive ready. -/
def stC4w : ServiceState :=
  { client := some 1, qrCode := some "ABC",
    connectionState := ConnState.CONNECTING, clientsCreated := 1 }

/-- The freshly constructed, disconnected service. -/
def stDisc : ServiceState := {}

/-- An inbound raw message used as a foreign message_ack payload. -/
def ackMsgC10 : RawMessage :=
  { id := "m2", msgFrom := "5511999@c.us", msgTo := "me", body := "yo",
    timestamp := 9, fromMe := false }

/-- A transport chat whose per-chat getMessages call failed during bulk
    import: the contact is saved with its unread count but no message list
    entry is ever created for the chat. -/
def chatC8 : ChatData :=
  { idSerialized := "5511777@c.us", idUser := "5511777", name := some "Test",
    unreadCount := 2, messagesResult := none }

/-- The connecting service right before its ready event. -/
def stPreC8 : ServiceState :=
  { client := some 1, connectionState := ConnState.CONNECTING, clientsCreated := 1,
    qrCode := some "q" }

/-- A stored chat with one self-sent and one received message. -/
def msgsC8w : List Message :=
  [{ id := "a1", chatId := "5511666@c.us", content := "mine", timestamp := 1000,
     fromMe := true, sender := some "me", status := MsgStatus.sent, type := MsgType.text },
   { id := "a2", chatId := "5511666@c.us", content := "theirs", timestamp := 2000,
     fromMe := false, sender := some "X", status := MsgStatus.received,
     type := MsgType.text }]

/-- The contact owning that chat, with unread messages pending. -/
def contactC8w : Contact :=
  { id := "5511666@c.us", name := "X", number := "5511666", unreadCount := 7 }

/-- A repository holding that contact and chat. -/
def repoC8w : Repo :=
  { contacts := [("5511666@c.us", contactC8w)],
    messages := [("5511666@c.us", msgsC8w)] }

/-- An inbound message with a newer timestamp, processed first. -/
def mC9a : RawMessage :=
  { id := "a", msgFrom := "5511888@c.us", msgTo := "me", body := "first",
    timestamp := 100, fromMe := false }

/-- An inbound message with an older timestamp, processed second. -/
def mC9b : RawMessage :=
  { id := "b", msgFrom := "5511888@c.us", msgTo := "me", body := "second",
    timestamp := 50, fromMe := false }

end WhatsApp

namespace WhatsApp

open WhatsAppService

/-- Looking up a key right after setting it returns the stored value. -/
theorem alistGet_set_self {α : Type} (l : List (String × α)) (k : String) (v : α) :
    alistGet (alistSet l k v) k = some v := by
  induction l with
  | nil => simp [alistSet, alistGet]
  | cons hd tl ih =>
    obtain ⟨k₀, v₀⟩ := hd
    by_cases h : k₀ = k
    · simp [alistSet, h, alistGet]
    · simp [alistSet, h, alistGet, ih]

/-- setMessageStatus only rewrites the status of the message the find
    targets. -/
theorem find_setMessageStatus (msgs : List Message) (id : String) (s : MsgStatus) :
    (setMessageStatus msgs id s).find? (fun m => m.id == id)
      = (msgs.find? (fun m => m.id == id)).map (fun m => { m with status := s }) := by
  induction msgs with
  | nil => rfl
  | cons m rest ih =>
    by_cases h : m.id = id
    · simp [setMessageStatus, h, List.find?]
    · have hb : (m.id == id) = false := by simp [h]
      simp [setMessageStatus, h, List.find?, hb, ih]

/-- A chat with no matching message yields no find result. -/
theorem find_none_of_any_false (msgs : List Message) (id : String)
    (h : msgs.any (fun m => m.id == id) = false) :
    msgs.find? (fun m => m.id == id) = none := by
  induction msgs with
  | nil => rfl
  | cons m rest ih =>
    rw [List.any_cons, Bool.or_eq_false_iff] at h
    simp [List.find?, h.1, ih h.2]

/-- The chat walk of updateMessageStatus rewrites exactly the status of
    the first message carrying the id, across chats in key order. -/
theorem findMessageAssoc_update (chats : List (String × List Message)) (id : String)
    (s : MsgStatus) :
    findMessageAssoc (updateMessagesAssoc chats id s).1 id
      = (findMessageAssoc chats id).map (fun m => { m with status := s }) := by
  induction chats with
  | nil => rfl
  | cons hd tl ih =>
    obtain ⟨cid, msgs⟩ := hd
    cases h : msgs.any (fun m => m.id == id) with
    | true =>
      simp only [updateMessagesAssoc, h, if_true, findMessageAssoc, find_setMessageStatus]
      cases hf : msgs.find? (fun m => m.id == id) with
      | none =>
        obtain ⟨x, hx, hpx⟩ := List.any_eq_true.mp h
        exact absurd hpx (by simpa using List.find?_eq_none.mp hf x hx)
      | some m => simp
    | false =>
      simp only [updateMessagesAssoc, h, findMessageAssoc,
        find_none_of_any_false _ _ h, ih]

/-- Repository-level form of the previous lemma. -/
theorem updateMessageStatus_find (repo : Repo) (id : String) (s : MsgStatus) (ts : Nat) :
    findMessageAssoc (repo.updateMessageStatus id s ts).messages id
      = (findMessageAssoc repo.messages id).map (fun m => { m with status := s }) := by
  unfold Repo.updateMessageStatus
  by_cases h : (updateMessagesAssoc repo.messages id s).2
  · simp [h, findMessageAssoc_update]
  · simp [h, findMessageAssoc_update]

/-- The per-message transform of markMessagesAsRead equals the plain
    spec-level transform: keep self-sent messages, set everything else to
    read (a non-self message already at read is a fixed point of both). -/
theorem markRead_pointwise (m : Message) :
    (if !m.fromMe && m.status != MsgStatus.read then { m with status := MsgStatus.read }
     else m)
      = (if m.fromMe then m else { m with status := MsgStatus.read }) := by
  cases m with
  | mk id chatId content timestamp fromMe sender status ty =>
    cases fromMe <;> cases status <;> simp

end WhatsApp

namespace WhatsApp

open WhatsAppService

/-- C1 counterexample: processing the identical inbound raw message mC1
    twice from the empty store leaves exactly one stored Message, but two
    MessageLog entries for its id and an unread count of 2 — the log
    append and the unread increment are repeated, refuting the claimed
    exactly-one log entry and exactly-once increment. -/
theorem C1_cex :
    rC1.messageCount "5511999@c.us" "m1" = 1 ∧
    rC1.logCount "m1" = 2 ∧
    (rC1.getContactById "5511999@c.us").map Contact.unreadCount = some 2 :=
  ⟨by decide, by decide, by decide⟩

/-- C1 (amended): for every inbound raw message with fromMe = false,
    processing it twice from the empty store yields exactly one Message
    record for its (chatId, id), but one MessageLog entry per processing
    call (two in total) and an unread count incremented once per call
    (2 in total): the increment is not skipped when the message id is
    already known. -/
theorem C1_amended (m : RawMessage) (h : m.fromMe = false) :
    Repo.messageCount (processIncomingMessage (processIncomingMessage emptyRepo m) m)
        (formatChatId m.msgFrom) m.id = 1 ∧
    Repo.logCount (processIncomingMessage (processIncomingMessage emptyRepo m) m) m.id = 2 ∧
    (Repo.getContactById (processIncomingMessage (processIncomingMessage emptyRepo m) m)
        (formatChatId m.msgFrom)).map Contact.unreadCount = some 2 := by
  simp [processIncomingMessage, h, emptyRepo, Repo.getContactById, Repo.saveContact,
        Repo.saveMessage, Repo.saveMessageLog, Repo.messageCount, Repo.logCount,
        Repo.messagesFor, alistGet, alistSet, updateFirstMessage, mergeMessage,
        List.countP_cons, List.countP_nil, beq_self_eq_true]

/-- C1 witness: the amended statement instantiated at the concrete
    message mC1. -/
theorem C1_amended_witness :
    mC1.fromMe = false ∧
    (Repo.messageCount (processIncomingMessage (processIncomingMessage emptyRepo mC1) mC1)
        (formatChatId mC1.msgFrom) mC1.id = 1 ∧
     Repo.logCount (processIncomingMessage (processIncomingMessage emptyRepo mC1) mC1)
        mC1.id = 2 ∧
     (Repo.getContactById (processIncomingMessage (processIncomingMessage emptyRepo mC1) mC1)
        (formatChatId mC1.msgFrom)).map Contact.unreadCount = some 2) :=
  ⟨by decide, C1_amended mC1 (by decide)⟩

/-- C2 counterexample: the self-sent message m1 acked with code 4 reaches
    status read, and a later code-3 ack moves it back to delivered — the
    stored status does move backward, and after seeing both a delivered
    and a read ack (in that order) the final status is delivered, not
    read. -/
theorem C2_cex :
    (findMessageAssoc (handleMessageAck repoC2 ackMsgC2 4 10).messages "m1").map
        Message.status = some MsgStatus.read ∧
    (findMessageAssoc
        (handleMessageAck (handleMessageAck repoC2 ackMsgC2 4 10) ackMsgC2 3 20).messages
        "m1").map Message.status = some MsgStatus.delivered :=
  ⟨by decide, by decide⟩

/-- C2 (amended): for a message with fromMe = true, each ack overwrites
    the stored status with the value its code maps to (3 = delivered,
    4 = read, anything else = sent), regardless of the current status:
    the stored status after a sequence of acks is the mapping of the last
    ack processed, so an out-of-order delivered ack after read moves the
    status backward to delivered. -/
theorem C2_amended (repo : Repo) (msg : RawMessage) (ack now : Nat)
    (h : msg.fromMe = true) :
    findMessageAssoc (handleMessageAck repo msg ack now).messages msg.id
      = (findMessageAssoc repo.messages msg.id).map
          (fun m => { m with status := ackToStatus ack }) := by
  simp only [handleMessageAck, h, if_true]
  exact updateMessageStatus_find repo msg.id (ackToStatus ack) now

/-- C2 witness: the amended statement instantiated at the stored message
    m1 and a code-3 ack. -/
theorem C2_amended_witness :
    ackMsgC2.fromMe = true ∧
    findMessageAssoc (handleMessageAck repoC2 ackMsgC2 3 10).messages ackMsgC2.id
      = (findMessageAssoc repoC2.messages ackMsgC2.id).map
          (fun m => { m with status := ackToStatus 3 }) :=
  ⟨by decide, C2_amended repoC2 ackMsgC2 3 10 (by decide)⟩

/-- C3 counterexample: after a second transport instance has been created
    (clientsCreated = 2), a qr callback tagged with the superseded
    instance 1 still mutates the session state — stale events are not
    discarded, because no generation check exists. -/
theorem C3_cex :
    preC3.1.clientsCreated = 2 ∧
    (1 : Nat) < preC3.1.clientsCreated ∧
    preC3.1.qrCode = none ∧
    (step preC3 (Step.evQr 1 "stale-qr", 3)).1.qrCode = some "stale-qr" :=
  ⟨by decide, by decide, by decide, by decide⟩

/-- C3 (amended): the handlers never consult the identity of the
    transport instance that emitted an event: a step behaves identically
    whatever generation tag the event carries, so events from a
    superseded transport mutate session state and the store exactly like
    current ones. -/
theorem C3_amended (sr : ServiceState × Repo) (s : Step) (now : Nat) :
    step sr (s, now) = step sr (stripGen s, now) := by
  cases s <;> rfl

/-- C4 counterexample: the reachable history initialize, qr "ABC",
    disconnected leaves the machine Disconnected while qrCode is still
    "ABC" — the disconnected handler does not clear the stored QR code. -/
theorem C4_cex :
    preC4.1.qrCode = some "ABC" ∧
    preC4.1.connectionState = ConnState.DISCONNECTED :=
  ⟨by decide, by decide⟩

/-- C4 (amended): every step keeps the state inside the three defined
    states (enforced by the state type), and whenever a step moves the
    machine into Connected the stored qrCode is cleared in that very
    step; qrCode non-null with state Disconnected remains reachable. -/
theorem C4_amended (sr : ServiceState × Repo) (s : Step) (now : Nat)
    (h1 : sr.1.connectionState ≠ ConnState.CONNECTED)
    (h2 : (step sr (s, now)).1.connectionState = ConnState.CONNECTED) :
    (step sr (s, now)).1.qrCode = none := by
  cases s with
  | callInit r =>
    by_cases hi : sr.1.isInitializing
    · simp [step, initClient, hi] at h2
      exact absurd h2 h1
    · by_cases hc : sr.1.client.isSome
      · simp [step, initClient, hi, hc] at h2
        exact absurd h2 h1
      · cases r with
        | ok u =>
          cases u
          simp [step, initClient, hi, hc] at h2
        | error e =>
          simp [step, initClient, hi, hc] at h2
  | callDisconnect r =>
    cases hcl : sr.1.client with
    | none =>
      simp [step, disconnect, hcl] at h2
      exact absurd h2 h1
    | some g =>
      cases r with
      | ok u =>
        cases u
        simp [step, disconnect, hcl] at h2
      | error e =>
        simp [step, disconnect, hcl] at h2
        exact absurd h2 h1
  | evQr g code =>
    simp [step, handleQr] at h2
    exact absurd h2 h1
  | evAuthenticated g =>
    cases hq : sr.1.qrCode with
    | none =>
      simp [step, handleAuthenticated, hq] at h2
      exact absurd h2 h1
    | some c =>
      simp [step, handleAuthenticated, hq] at h2
      exact absurd h2 h1
  | evAuthFailure g reason =>
    simp [step, handleAuthFailure] at h2
    exact absurd h2 h1
  | evReady g chats =>
    simp [step, handleReady]
  | evDisconnected g reason =>
    simp [step, handleDisconnected] at h2
  | evMessage g m =>
    simp [step] at h2
    exact absurd h2 h1
  | evMessageAck g m ack =>
    simp [step] at h2
    exact absurd h2 h1
  | callSendMessage dest content r =>
    simp [step] at h2
    exact absurd h2 h1
  | callMarkChatAsRead cid r =>
    simp [step] at h2
    exact absurd h2 h1

/-- C4 witness: a ready event moves the connecting state stC4w (holding a
    QR code) into Connected and clears the code. -/
theorem C4_amended_witness :
    (stC4w, emptyRepo).1.connectionState ≠ ConnState.CONNECTED ∧
    (step (stC4w, emptyRepo) (Step.evReady 1 [], 3)).1.connectionState
      = ConnState.CONNECTED ∧
    (step (stC4w, emptyRepo) (Step.evReady 1 [], 3)).1.qrCode = none :=
  ⟨by decide, by decide,
   C4_amended (stC4w, emptyRepo) (Step.evReady 1 []) 3 (by decide) (by decide)⟩

/-- C5: whenever the connection state is not Connected, sendMessage fails
    with the NotConnected error and returns the repository unchanged — no
    Message, MessageLog or Contact write happens. -/
theorem C5_guard (st : ServiceState) (repo : Repo) (dest content : String) (now : Nat)
    (sendResult : Except String String)
    (h : st.connectionState ≠ ConnState.CONNECTED) :
    sendMessage st repo dest content now sendResult
      = (repo, Except.error "WhatsApp client is not connected") := by
  have hb : (st.connectionState != ConnState.CONNECTED) = true := by
    simp [bne_iff_ne]
    exact h
  simp [sendMessage, hb]

/-- C5 witness: the guard instantiated at the freshly constructed
    disconnected service. -/
theorem C5_guard_witness :
    stDisc.connectionState ≠ ConnState.CONNECTED ∧
    sendMessage stDisc emptyRepo "5511999" "hi" 0 (Except.ok "m9")
      = (emptyRepo, Except.error "WhatsApp client is not connected") :=
  ⟨by decide, C5_guard stDisc emptyRepo "5511999" "hi" 0 (Except.ok "m9") (by decide)⟩

/-- C6 counterexample: when the session-start command rejects with boom,
    initialize() records the error in the session state yet still resolves
    successfully — the error is not reported to the caller of
    initialize(), only via the emitted error event. -/
theorem C6_cex :
    (initClient {} emptyRepo 0 (Except.error "boom")).result = Except.ok () ∧
    (initClient {} emptyRepo 0 (Except.error "boom")).state.connectionError
      = some "boom" :=
  ⟨rfl, by decide⟩

/-- C6 (amended): a session-start failure during initialize() moves the
    state to Disconnected, records the error message, persists an offline
    APIStatus snapshot carrying it, and emits an error event — but the
    initialize() promise itself resolves normally (the error is not
    rethrown to its caller), no retry happens, and the dead transport
    handle is left in place. -/
theorem C6_amended (st : ServiceState) (repo : Repo) (now : Nat) (e : String)
    (h1 : st.isInitializing = false) (h2 : st.client = none) :
    (initClient st repo now (Except.error e)).state.connectionState
        = ConnState.DISCONNECTED ∧
    (initClient st repo now (Except.error e)).state.connectionError = some e ∧
    (initClient st repo now (Except.error e)).repo.apiStatus
      = some { status := "offline", lastChecked := now, rateLimitRemaining := 0,
               rateLimitReset := now + 24 * 60 * 60 * 1000, responseTimeMs := 0,
               errorMessage := some e } ∧
    "error" ∈ (initClient st repo now (Except.error e)).emitted ∧
    (initClient st repo now (Except.error e)).result = Except.ok () ∧
    (initClient st repo now (Except.error e)).state.isInitializing = false ∧
    (initClient st repo now (Except.error e)).state.client
      = some (st.clientsCreated + 1) := by
  simp [initClient, h1, h2, Repo.saveAPIStatus]

/-- C6 witness: the amended statement instantiated at the fresh service
    and the failure message boom. -/
theorem C6_amended_witness :
    (({} : ServiceState).isInitializing = false) ∧
    (({} : ServiceState).client = none) ∧
    (initClient {} emptyRepo 7 (Except.error "boom")).state.connectionState
        = ConnState.DISCONNECTED ∧
    (initClient {} emptyRepo 7 (Except.error "boom")).state.connectionError
        = some "boom" ∧
    (initClient {} emptyRepo 7 (Except.error "boom")).repo.apiStatus
      = some { status := "offline", lastChecked := 7, rateLimitRemaining := 0,
               rateLimitReset := 7 + 24 * 60 * 60 * 1000, responseTimeMs := 0,
               errorMessage := some "boom" } ∧
    "error" ∈ (initClient {} emptyRepo 7 (Except.error "boom")).emitted ∧
    (initClient {} emptyRepo 7 (Except.error "boom")).result = Except.ok () ∧
    (initClient {} emptyRepo 7 (Except.error "boom")).state.isInitializing = false ∧
    (initClient {} emptyRepo 7 (Except.error "boom")).state.client
      = some (({} : ServiceState).clientsCreated + 1) := by
  have h := C6_amended {} emptyRepo 7 "boom" rfl rfl
  exact ⟨rfl, rfl, h.1, h.2.1, h.2.2.1, h.2.2.2.1, h.2.2.2.2.1, h.2.2.2.2.2.1,
         h.2.2.2.2.2.2⟩

/-- C7 counterexample: with a live handle, a failing teardown command
    leaves the machine Connected with the handle still in place while the
    error propagates — disconnect() does not force Disconnected on
    teardown failure. -/
theorem C7_cex :
    (disconnect stCon emptyRepo (Except.error "teardown")).1.connectionState
        = ConnState.CONNECTED ∧
    (disconnect stCon emptyRepo (Except.error "teardown")).1.client = some 1 ∧
    (disconnect stCon emptyRepo (Except.error "teardown")).2.2
        = Except.error "teardown" :=
  ⟨by decide, by decide, rfl⟩

/-- C7 (amended): disconnect() is a no-op without a handle; with a handle
    and a successful teardown it clears the handle and qrCode and forces
    Disconnected; a teardown error is surfaced to the caller but leaves
    the service state entirely unchanged, handle included. -/
theorem C7_amended (st : ServiceState) (repo : Repo) (e : String) :
    (st.client = none →
      ∀ r, disconnect st repo r = (st, repo, Except.ok ())) ∧
    (st.client ≠ none →
      disconnect st repo (Except.ok ())
        = ({ st with client := none, qrCode := none, connectionState := ConnState.DISCONNECTED },
           repo, Except.ok ())) ∧
    (st.client ≠ none →
      disconnect st repo (Except.error e) = (st, repo, Except.error e)) := by
  refine ⟨fun h r => ?_, fun h => ?_, fun h => ?_⟩
  · simp [disconnect, h]
  · cases hcl : st.client with
    | none => exact absurd hcl h
    | some g => simp [disconnect, hcl]
  · cases hcl : st.client with
    | none => exact absurd hcl h
    | some g => simp [disconnect, hcl]

/-- C7 witness: the successful-teardown branch instantiated at the
    connected service. -/
theorem C7_amended_witness :
    stCon.client ≠ none ∧
    disconnect stCon emptyRepo (Except.ok ())
      = ({ stCon with client := none, qrCode := none, connectionState := ConnState.DISCONNECTED },
         emptyRepo, Except.ok ()) :=
  ⟨by decide, (C7_amended stCon emptyRepo "x").2.1 (by decide)⟩

end WhatsApp

namespace WhatsApp

open WhatsAppService

/-- C8 counterexample: the bulk import whose per-chat getMessages call
    failed stores the contact with unreadCount 2 but no message list for
    the chat; a subsequent successful markChatAsRead leaves that unread
    count at 2 instead of resetting it to 0. -/
theorem C8_cex :
    ((handleReady stPreC8 emptyRepo [chatC8] 3).2.getContactById
        "5511777@c.us").map Contact.unreadCount = some 2 ∧
    (markChatAsRead (handleReady stPreC8 emptyRepo [chatC8] 3).1
        (handleReady stPreC8 emptyRepo [chatC8] 3).2 "5511777@c.us" (Except.ok ())).2
      = Except.ok () ∧
    ((markChatAsRead (handleReady stPreC8 emptyRepo [chatC8] 3).1
        (handleReady stPreC8 emptyRepo [chatC8] 3).2 "5511777@c.us"
        (Except.ok ())).1.getContactById "5511777@c.us").map Contact.unreadCount
      = some 2 :=
  ⟨by decide, rfl, by decide⟩

/-- C8 (amended): while Connected with a live handle, and provided the
    chat has a stored message list, markChatAsRead sets the status of
    every fromMe = false message in that chat to read while leaving every
    fromMe = true message unmodified, and resets the owning contact
    unreadCount to 0; a chat without a stored message list is left
    entirely unchanged. -/
theorem C8_amended (st : ServiceState) (repo : Repo) (chatId : String)
    (msgs : List Message)
    (hcl : st.client ≠ none)
    (hconn : st.connectionState = ConnState.CONNECTED)
    (hmsgs : alistGet repo.messages (formatNumber chatId) = some msgs) :
    (markChatAsRead st repo chatId (Except.ok ())).2 = Except.ok () ∧
    Repo.messagesFor (markChatAsRead st repo chatId (Except.ok ())).1 (formatNumber chatId)
      = msgs.map (fun m => if m.fromMe then m else { m with status := MsgStatus.read }) ∧
    (∀ c, repo.getContactById (formatNumber chatId) = some c →
      Repo.getContactById (markChatAsRead st repo chatId (Except.ok ())).1
          (formatNumber chatId)
        = some { c with unreadCount := 0 }) := by
  have hnone : st.client.isNone = false := by
    cases hcv : st.client with
    | none => exact absurd hcv hcl
    | some g => rfl
  have hbne : (st.connectionState != ConnState.CONNECTED) = false := by
    rw [hconn]
    simp
  have hg : markChatAsRead st repo chatId (Except.ok ())
      = (repo.markMessagesAsRead (formatNumber chatId), Except.ok ()) := by
    simp [markChatAsRead, hnone, hbne]
  refine ⟨by rw [hg], ?_, ?_⟩
  · rw [hg]
    simp only [Repo.markMessagesAsRead, hmsgs, Repo.messagesFor]
    rw [alistGet_set_self]
    simp only [Option.getD_some]
    exact List.map_congr_left (fun m _ => markRead_pointwise m)
  · intro c hc
    simp only [Repo.getContactById] at hc
    rw [hg]
    simp only [Repo.markMessagesAsRead, hmsgs, Repo.getContactById, hc]
    rw [alistGet_set_self]

/-- C8 witness: the amended statement instantiated at a chat holding one
    self-sent and one received message and a contact with 7 unread
    messages. -/
theorem C8_amended_witness :
    stCon.client ≠ none ∧
    stCon.connectionState = ConnState.CONNECTED ∧
    alistGet repoC8w.messages (formatNumber "5511666@c.us") = some msgsC8w ∧
    ((markChatAsRead stCon repoC8w "5511666@c.us" (Except.ok ())).2 = Except.ok () ∧
     Repo.messagesFor (markChatAsRead stCon repoC8w "5511666@c.us" (Except.ok ())).1
         (formatNumber "5511666@c.us")
       = msgsC8w.map (fun m => if m.fromMe then m else { m with status := MsgStatus.read }) ∧
     Repo.getContactById (markChatAsRead stCon repoC8w "5511666@c.us" (Except.ok ())).1
         (formatNumber "5511666@c.us")
       = some { contactC8w with unreadCount := 0 }) :=
  ⟨by decide, by decide, by decide,
   (C8_amended stCon repoC8w "5511666@c.us" msgsC8w (by decide) (by decide)
      (by decide)).1,
   (C8_amended stCon repoC8w "5511666@c.us" msgsC8w (by decide) (by decide)
      (by decide)).2.1,
   (C8_amended stCon repoC8w "5511666@c.us" msgsC8w (by decide) (by decide)
      (by decide)).2.2 contactC8w (by decide)⟩

/-- C9 counterexample: after ingesting mC9a (timestamp 100) and then the
    older mC9b (timestamp 50) for the same chat, the contact lastMessage
    carries timestamp 50000 — the older message replaced the newer
    summary, refuting latest-by-timestamp selection. -/
theorem C9_cex :
    mC9b.timestamp < mC9a.timestamp ∧
    (((processIncomingMessage (processIncomingMessage emptyRepo mC9a) mC9b).getContactById
        "5511888@c.us").bind Contact.lastMessage).map LastMessage.timestamp
      = some 50000 ∧
    (((processIncomingMessage emptyRepo mC9a).getContactById
        "5511888@c.us").bind Contact.lastMessage).map LastMessage.timestamp
      = some 100000 :=
  ⟨by decide, by decide, by decide⟩

/-- C9 (amended): after every processed message, the contact lastMessage
    summary is exactly that of the message just processed — selection is
    by arrival order, not by timestamp, so an older message does replace
    a newer summary. -/
theorem C9_amended (repo : Repo) (m : RawMessage) (hwf : repo.contactsWF) :
    ((processIncomingMessage repo m).getContactById
        (formatChatId (if m.fromMe then m.msgTo else m.msgFrom))).bind Contact.lastMessage
      = some { content := m.body, timestamp := m.timestamp * 1000,
               status := if m.fromMe then MsgStatus.sent else MsgStatus.received } := by
  unfold processIncomingMessage
  cases hfm : m.fromMe with
  | true =>
    simp only [hfm, if_true, Bool.not_true, Bool.false_eq_true]
    cases hc : alistGet repo.contacts (formatChatId m.msgTo) with
    | none =>
      simp [Repo.getContactById, hc, Repo.saveContact, Repo.saveMessage,
        Repo.saveMessageLog, alistGet_set_self]
    | some c =>
      have hid : c.id = formatChatId m.msgTo := by
        have := hwf _ c hc
        simpa using this
      simp [Repo.getContactById, hc, Repo.saveContact, Repo.saveMessage,
        Repo.saveMessageLog, hid, alistGet_set_self]
  | false =>
    simp only [hfm, if_false, Bool.not_false, Bool.false_eq_true]
    cases hc : alistGet repo.contacts (formatChatId m.msgFrom) with
    | none =>
      simp [Repo.getContactById, hc, Repo.saveContact, Repo.saveMessage,
        Repo.saveMessageLog, alistGet_set_self]
    | some c =>
      have hid : c.id = formatChatId m.msgFrom := by
        have := hwf _ c hc
        simpa using this
      simp [Repo.getContactById, hc, Repo.saveContact, Repo.saveMessage,
        Repo.saveMessageLog, hid, alistGet_set_self]

/-- C9 witness: the amended statement instantiated at the empty store and
    the message mC9b. -/
theorem C9_amended_witness :
    emptyRepo.contactsWF ∧
    (((processIncomingMessage emptyRepo mC9b).getContactById
        (formatChatId (if mC9b.fromMe then mC9b.msgTo else mC9b.msgFrom))).bind
        Contact.lastMessage
      = some { content := mC9b.body, timestamp := mC9b.timestamp * 1000,
               status := if mC9b.fromMe then MsgStatus.sent else MsgStatus.received }) :=
  ⟨fun k c h => by simp [emptyRepo, alistGet] at h,
   C9_amended emptyRepo mC9b (fun k c h => by simp [emptyRepo, alistGet] at h)⟩

/-- C10: a message_ack for a message with fromMe = false performs no
    repository write at all — the whole repository, messages, logs and
    contacts included, is returned unchanged. -/
theorem C10_ack_foreign_noop (repo : Repo) (msg : RawMessage) (ack now : Nat)
    (h : msg.fromMe = false) :
    handleMessageAck repo msg ack now = repo := by
  simp [handleMessageAck, h]

/-- C10 witness: the frame property instantiated at a populated store and
    a code-3 ack for an inbound message. -/
theorem C10_ack_foreign_noop_witness :
    ackMsgC10.fromMe = false ∧
    handleMessageAck repoC2 ackMsgC10 3 11 = repoC2 :=
  ⟨by decide, C10_ack_foreign_noop repoC2 ackMsgC10 3 11 (by decide)⟩

end WhatsApp
